import Mathlib

/-!
Verification of `samples/sample_util/SampleApplication.cpp` (MetalANGLE
sample-application harness).  The file is orchestration glue: a backend-name
lookup, command-line parsing in the constructor, and the
prepare / iterate / run / exit lifecycle.  External collaborators (the
`OSWindow` windowing abstraction and the `EGLWindow` context abstraction) are
modelled by boolean / value oracles for their results, and the calls the
harness makes into them (and into the user hooks) are recorded in an effect
trace.
-/

/-- The EGL renderer constants that occur in `kDisplayTypes`
(`EGL_PLATFORM_ANGLE_TYPE_*_ANGLE`).  They are distinct integer constants in
the EGL headers; an inductive type keeps exactly that distinctness.
`default` stands for `EGL_PLATFORM_ANGLE_TYPE_DEFAULT_ANGLE`. -/
inductive Renderer where
  | default
  | d3d9
  | d3d11
  | gl
  | gles
  | null
  | vulkan
  deriving DecidableEq, Repr

/-- The two `EGL_PLATFORM_ANGLE_DEVICE_TYPE_*_ANGLE` constants used by
`GetDeviceTypeFromArg`. -/
inductive DeviceType where
  | hardware
  | swiftshader
  deriving DecidableEq, Repr

/-- The table `kDisplayTypes`, exactly in source order.  Note the last entry
pairs the name `"swiftshader"` with the Vulkan renderer. -/
def kDisplayTypes : List (String × Renderer) :=
  [("d3d9", Renderer.d3d9),
   ("d3d11", Renderer.d3d11),
   ("gl", Renderer.gl),
   ("gles", Renderer.gles),
   ("null", Renderer.null),
   ("vulkan", Renderer.vulkan),
   ("swiftshader", Renderer.vulkan)]

/-- The `for` loop of `GetDisplayTypeFromArg`: scan the table in order and
return the renderer of the first entry whose name is `strcmp`-equal to the
argument; fall through to the default renderer. -/
def lookupDisplayType : List (String × Renderer) → String → Renderer
  | [], _ => Renderer.default
  | (name, r) :: rest, arg =>
      if name = arg then r else lookupDisplayType rest arg

/-- `GetDisplayTypeFromArg` from the anonymous namespace (the `std::cout`
logging has no bearing on the returned value and is omitted). -/
def GetDisplayTypeFromArg (displayTypeArg : String) : Renderer :=
  lookupDisplayType kDisplayTypes displayTypeArg

/-- `GetDeviceTypeFromArg`: SwiftShader device type exactly for the string
`"swiftshader"`, hardware otherwise. -/
def GetDeviceTypeFromArg (displayTypeArg : String) : DeviceType :=
  if displayTypeArg = "swiftshader" then DeviceType.swiftshader
  else DeviceType.hardware

/-- `kUseAngleArg` from the anonymous namespace. -/
def kUseAngleArg : String := "--use-angle="

/-- The part of `PlatformParameters` the constructor writes.  `deviceType` is
`none` when the constructor leaves the field at the collaborator's default
(the `PlatformParameters` definition lives in `util/`, outside this file). -/
structure PlatformParams where
  renderer : Renderer
  deviceType : Option DeviceType
  deriving DecidableEq, Repr

/-- `strncmp(s, pre, strlen(pre)) == 0`: does `pre` occur character for
character at the start of `s`? -/
def strncmpPrefixEq : List Char → List Char → Bool
  | [], _ => true
  | _ :: _, [] => false
  | p :: ps, c :: cs => p = c && strncmpPrefixEq ps cs

/-- The argument handling of the `SampleApplication` constructor:
`mPlatformParams.renderer` is first set to the default; then, only when
`argc > 1` and `argv[1]` starts with `"--use-angle="` (the `strncmp` check),
the remainder of `argv[1]` (the pointer `argv[1] + strlen(kUseAngleArg)`) is
fed to `GetDisplayTypeFromArg` / `GetDeviceTypeFromArg`. -/
def constructPlatformParams (argv : List String) : PlatformParams :=
  let base : PlatformParams := { renderer := Renderer.default, deviceType := none }
  match argv with
  | _prog :: arg1 :: _rest =>
      if strncmpPrefixEq kUseAngleArg.data arg1.data then
        let arg := String.mk (arg1.data.drop kUseAngleArg.length)
        { renderer := GetDisplayTypeFromArg arg,
          deviceType := some (GetDeviceTypeFromArg arg) }
      else base
  | _ => base

/-- The mutable lifecycle state of a `SampleApplication` that the claims are
about: the `mRunning` flag and the `mPrevTime` baseline.  `mPrevTime` is a
`double` never entering any claimed arithmetic, so its value is carried as an
integer timestamp; it is uninitialized until first written, hence `Option`. -/
structure AppState where
  running : Bool
  prevTime : Option Int
  deriving DecidableEq, Repr

/-- The types of events `popEvent` can hand back.  Modelled from the spec:
the `Event` struct comes from `util/Event.h` (outside this file); the drain
only distinguishes `Event::EVENT_CLOSED` from everything else. -/
inductive Event where
  | closed
  | other
  deriving DecidableEq, Repr

/-- The observable calls the harness makes into the user hooks and the two
collaborators, in the order they happen. -/
inductive Effect where
  | stepHook
  | drawHook
  | swapCall
  | messageLoop
  | windowInit
  | ownLoop
  | destroyHook
  | destroyGL
  | windowDestroy
  deriving DecidableEq, Repr

namespace SampleApplication

/-- State after the constructor body: the initializer list sets
`mRunning(false)`; `mPrevTime` is not initialized (first written in
`prepareToRun`). -/
def constructState : AppState :=
  { running := false, prevTime := none }

/-- `SampleApplication::exit`: sets `mRunning = false`. -/
def exit (s : AppState) : AppState :=
  { s with running := false }

/-- `SampleApplication::prepareToRun`.  The collaborator results are oracle
booleans: `glOk` for `mEGLWindow->initializeGL(...)`, `swapOk` for
`mEGLWindow->setSwapInterval(0)`, `initOk` for the virtual `initialize()`
hook.  Returns the updated state and the `int` result.  On success
`mTimer.start(); mPrevTime = 0.0;` runs, hence `prevTime := some 0`. -/
def prepareToRun (s : AppState) (glOk swapOk initOk : Bool) : AppState × Int :=
  if !glOk then (s, -1)
  else if !swapOk then (s, -1)
  else
    let s1 : AppState := { s with running := true }
    if !initOk then ({ s1 with running := false }, -1)
    else ({ s1 with prevTime := some 0 }, 0)

/-- The event-drain `while (popEvent(&event))` loop of `runIteration`:
`events` is the queue the window hands back this iteration; every popped
close event calls `exit()`. -/
def drainEvents (s : AppState) (events : List Event) : AppState :=
  events.foldl (fun st e => if e = Event.closed then exit st else st) s

/-- `SampleApplication::runIteration`.  `elapsed` is the oracle value of
`mTimer.getElapsedTime()`; `events` is the pending event queue.  Returns the
updated state, the trace of hook/collaborator calls, and the `int` result. -/
def runIteration (s : AppState) (elapsed : Int) (events : List Event) :
    AppState × List Effect × Int :=
  let s1 := drainEvents s events
  if !s1.running then (s1, [Effect.stepHook], 0)
  else ({ s1 with prevTime := some elapsed },
        [Effect.stepHook, Effect.drawHook, Effect.swapCall, Effect.messageLoop], 0)

/-- Oracle for one `SampleApplication::run` call: the `OSWindow::initialize`
result, whether the window has its own loop, the result and final state of
`runOwnLoop` (an external blocking loop that drives the two callbacks
itself), the three `prepareToRun` oracles, and the per-iteration timer/event
oracles for the explicit `while (mRunning)` loop. -/
structure RunOracle where
  windowInitOk : Bool
  hasOwnLoop : Bool
  ownLoopResult : Int
  ownLoopState : AppState
  glOk : Bool
  swapOk : Bool
  initOk : Bool
  iters : List (Int × List Event)
  deriving Repr

/-- The explicit `while (mRunning) { runIteration(); }` loop, driven by the
finite iteration oracle; `none` when the oracle runs out while `mRunning`
still holds (the C++ loop would keep going). -/
def runLoop : AppState → List (Int × List Event) → Option (AppState × List Effect)
  | s, [] => if !s.running then some (s, []) else none
  | s, (e, evs) :: rest =>
      if !s.running then some (s, [])
      else
        let out := runIteration s e evs
        (runLoop out.1 rest).map (fun p => (p.1, out.2.1 ++ p.2))

/-- `SampleApplication::run`.  Early `-1` return when `OSWindow::initialize`
fails; own-loop path delegates to `runOwnLoop` and then tears down; explicit
path returns `prepareToRun`'s result immediately on failure (skipping the
teardown), otherwise loops and then tears down.  The teardown is
`destroy(); mEGLWindow->destroyGL(); mOSWindow->destroy();` in that order. -/
def run (s : AppState) (o : RunOracle) : Option (AppState × List Effect × Int) :=
  if !o.windowInitOk then some (s, [Effect.windowInit], -1)
  else if o.hasOwnLoop then
    some (o.ownLoopState,
          [Effect.windowInit, Effect.ownLoop,
           Effect.destroyHook, Effect.destroyGL, Effect.windowDestroy],
          o.ownLoopResult)
  else
    let pr := prepareToRun s o.glOk o.swapOk o.initOk
    if pr.2 ≠ 0 then some (pr.1, [Effect.windowInit], pr.2)
    else
      (runLoop pr.1 o.iters).map (fun p =>
        (p.1,
         Effect.windowInit :: (p.2 ++ [Effect.destroyHook, Effect.destroyGL, Effect.windowDestroy]),
         0))

end SampleApplication

/-! ## Helper lemmas -/

lemma exit_running (s : AppState) : (SampleApplication.exit s).running = false := rfl

lemma exit_prevTime (s : AppState) : (SampleApplication.exit s).prevTime = s.prevTime := rfl

lemma drainEvents_running (s : AppState) (evs : List Event) :
    (SampleApplication.drainEvents s evs).running =
      if Event.closed ∈ evs then false else s.running := by
  induction evs generalizing s with
  | nil => simp [SampleApplication.drainEvents]
  | cons e rest ih =>
    cases e with
    | closed =>
      simp [SampleApplication.drainEvents, List.foldl_cons] at ih ⊢
      rw [show (SampleApplication.exit s) = {s with running := false} from rfl] at *
      simp [ih]
    | other =>
      simp [SampleApplication.drainEvents, List.foldl_cons] at ih ⊢
      simp [ih]

lemma drainEvents_prevTime (s : AppState) (evs : List Event) :
    (SampleApplication.drainEvents s evs).prevTime = s.prevTime := by
  induction evs generalizing s with
  | nil => rfl
  | cons e rest ih =>
    cases e with
    | closed =>
      simpa [SampleApplication.drainEvents, List.foldl_cons] using
        ih (SampleApplication.exit s)
    | other =>
      simpa [SampleApplication.drainEvents, List.foldl_cons] using ih s

lemma lookupDisplayType_eq_find (l : List (String × Renderer)) (s : String) :
    lookupDisplayType l s =
      ((l.find? (fun p => p.1 == s)).map Prod.snd).getD Renderer.default := by
  induction l with
  | nil => rfl
  | cons p rest ih =>
    obtain ⟨name, r⟩ := p
    by_cases h : name = s
    · simp [lookupDisplayType, List.find?, h]
    · simp only [lookupDisplayType, List.find?, if_neg h]
      have hb : (name == s) = false := by simpa using h
      rw [hb]
      exact ih

/-! ## Claim theorems -/

/-- C1: `prepareToRun` (entered with the running flag still false, as after
construction) returns a negative result exactly when context initialization,
vsync-disable, or the user initialize hook fails; in every failure case the
running flag is false on return — in particular the initialize-hook failure
rolls the already-set flag back — and on success it returns 0 with the
running flag true. -/
theorem prepareToRun_failure_contract (s : AppState) (glOk swapOk initOk : Bool)
    (h : s.running = false) :
    ((SampleApplication.prepareToRun s glOk swapOk initOk).2 < 0 ↔
       ¬(glOk = true ∧ swapOk = true ∧ initOk = true))
  ∧ ((SampleApplication.prepareToRun s glOk swapOk initOk).2 < 0 →
       (SampleApplication.prepareToRun s glOk swapOk initOk).1.running = false)
  ∧ ((SampleApplication.prepareToRun s glOk swapOk initOk).2 = 0 →
       (SampleApplication.prepareToRun s glOk swapOk initOk).1.running = true)
  ∧ (glOk = true ∧ swapOk = true ∧ initOk = true →
       (SampleApplication.prepareToRun s glOk swapOk initOk).2 = 0
     ∧ (SampleApplication.prepareToRun s glOk swapOk initOk).1.running = true) := by
  cases glOk <;> cases swapOk <;> cases initOk <;>
    simp_all [SampleApplication.prepareToRun]

/-- Witness for C1 at a concrete input: the initialize hook fails, the result
is negative and the running flag ends false. -/
theorem prepareToRun_failure_contract_witness :
    (SampleApplication.prepareToRun SampleApplication.constructState true true false).1.running
      = false :=
  (prepareToRun_failure_contract SampleApplication.constructState true true false rfl).2.1
    (by decide)

/-- C2: whenever the event drain of `runIteration` pops a close event, the
running flag is false when the call returns and neither the draw hook nor
swap appears in that call's trace. -/
theorem runIteration_close_event (s : AppState) (e : Int) (evs : List Event)
    (h : Event.closed ∈ evs) :
    (SampleApplication.runIteration s e evs).1.running = false
  ∧ Effect.drawHook ∉ (SampleApplication.runIteration s e evs).2.1
  ∧ Effect.swapCall ∉ (SampleApplication.runIteration s e evs).2.1 := by
  have hd : (SampleApplication.drainEvents s evs).running = false := by
    rw [drainEvents_running, if_pos h]
  simp [SampleApplication.runIteration, hd]

/-- Witness for C2 at a concrete input: a single close event stops the
iteration without drawing or swapping. -/
theorem runIteration_close_event_witness :
    (SampleApplication.runIteration SampleApplication.constructState 0 [Event.closed]).1.running
      = false :=
  (runIteration_close_event SampleApplication.constructState 0 [Event.closed]
    (by decide)).1

/-- C3: `GetDisplayTypeFromArg` implements first-match lookup over the fixed
table — each listed name maps to its paired renderer (with
`"swiftshader"` paired to Vulkan) — and any string matching no entry,
the empty string included, yields the default renderer. -/
theorem GetDisplayTypeFromArg_contract :
    (∀ s : String, GetDisplayTypeFromArg s =
       ((kDisplayTypes.find? (fun p => p.1 == s)).map Prod.snd).getD Renderer.default)
  ∧ GetDisplayTypeFromArg "d3d9" = Renderer.d3d9
  ∧ GetDisplayTypeFromArg "d3d11" = Renderer.d3d11
  ∧ GetDisplayTypeFromArg "gl" = Renderer.gl
  ∧ GetDisplayTypeFromArg "gles" = Renderer.gles
  ∧ GetDisplayTypeFromArg "null" = Renderer.null
  ∧ GetDisplayTypeFromArg "vulkan" = Renderer.vulkan
  ∧ GetDisplayTypeFromArg "swiftshader" = Renderer.vulkan
  ∧ GetDisplayTypeFromArg "" = Renderer.default
  ∧ (∀ s : String, (∀ p ∈ kDisplayTypes, p.1 ≠ s) →
       GetDisplayTypeFromArg s = Renderer.default) := by
  refine ⟨fun s => lookupDisplayType_eq_find kDisplayTypes s,
    by decide, by decide, by decide, by decide, by decide, by decide, by decide, by decide,
    fun s hs => ?_⟩
  rw [GetDisplayTypeFromArg, lookupDisplayType_eq_find]
  have : kDisplayTypes.find? (fun p => p.1 == s) = none := by
    rw [List.find?_eq_none]
    intro p hp
    simpa using hs p hp
  rw [this]
  rfl

/-- Witness for C3 at a concrete input: an unknown backend token falls back
to the default renderer. -/
theorem GetDisplayTypeFromArg_contract_witness :
    GetDisplayTypeFromArg "metal" = Renderer.default :=
  GetDisplayTypeFromArg_contract.2.2.2.2.2.2.2.2.2 "metal" (by decide)

/-- C4: `GetDeviceTypeFromArg` selects the SwiftShader device type exactly
for the string `"swiftshader"`; every other string, a renderer name such as
`"vulkan"` included, selects the hardware device type. -/
theorem GetDeviceTypeFromArg_contract :
    (∀ s : String, GetDeviceTypeFromArg s = DeviceType.swiftshader ↔ s = "swiftshader")
  ∧ (∀ s : String, s ≠ "swiftshader" → GetDeviceTypeFromArg s = DeviceType.hardware)
  ∧ GetDeviceTypeFromArg "vulkan" = DeviceType.hardware := by
  refine ⟨fun s => ?_, fun s h => ?_, by decide⟩
  · unfold GetDeviceTypeFromArg
    split <;> simp_all
  · simp [GetDeviceTypeFromArg, h]

/-- Witness for C4 at a concrete input: the token `"gl"` maps to the
hardware device type. -/
theorem GetDeviceTypeFromArg_contract_witness :
    GetDeviceTypeFromArg "gl" = DeviceType.hardware :=
  GetDeviceTypeFromArg_contract.2.1 "gl" (by decide)

/-- C5: the constructor parses only `argv[1]` and only when it starts with
`"--use-angle="`: the vulkan token gives (Vulkan, Hardware), the swiftshader
token gives (Vulkan, SoftwareEmulated), no flag leaves the platform-default
renderer, later arguments are never consulted, and a first argument without
the prefix is ignored. -/
theorem constructor_arg_parsing :
    constructPlatformParams ["prog", "--use-angle=vulkan"] =
      { renderer := Renderer.vulkan, deviceType := some DeviceType.hardware }
  ∧ constructPlatformParams ["prog", "--use-angle=swiftshader"] =
      { renderer := Renderer.vulkan, deviceType := some DeviceType.swiftshader }
  ∧ (constructPlatformParams ["prog"]).renderer = Renderer.default
  ∧ (∀ prog a rest, constructPlatformParams (prog :: a :: rest) =
       constructPlatformParams [prog, a])
  ∧ (∀ prog a rest, strncmpPrefixEq kUseAngleArg.data a.data = false →
       constructPlatformParams (prog :: a :: rest) =
         { renderer := Renderer.default, deviceType := none }) := by
  refine ⟨by decide, by decide, by decide, fun prog a rest => rfl, fun prog a rest h => ?_⟩
  simp [constructPlatformParams, h]

/-- Witness for C5 at a concrete input: a first argument without the
`--use-angle=` prefix leaves the default configuration. -/
theorem constructor_arg_parsing_witness :
    constructPlatformParams ["prog", "-v", "x"] =
      { renderer := Renderer.default, deviceType := none } :=
  constructor_arg_parsing.2.2.2.2 "prog" "-v" ["x"] (by decide)

/-! ## Lifecycle traces (for the reachability invariant) -/

/-- One externally triggered lifecycle operation on a constructed
application: a `prepareToRun` call (with its three collaborator outcomes), a
`runIteration` call (with its timer value and pending events), or an
`exit()` call. -/
inductive Op where
  | prepare (glOk swapOk initOk : Bool)
  | iterate (elapsed : Int) (events : List Event)
  | exitCall
  deriving Repr

/-- State reached by one lifecycle operation. -/
def applyOp (s : AppState) : Op → AppState
  | Op.prepare g sw i => (SampleApplication.prepareToRun s g sw i).1
  | Op.iterate e evs => (SampleApplication.runIteration s e evs).1
  | Op.exitCall => SampleApplication.exit s

/-- State reached by a sequence of lifecycle operations. -/
def applyOps (s : AppState) (ops : List Op) : AppState :=
  ops.foldl applyOp s

/-- How one operation transforms the running flag. -/
def opEffect (b : Bool) : Op → Bool
  | Op.prepare g sw i => if g && sw then i else b
  | Op.iterate _ evs => if Event.closed ∈ evs then false else b
  | Op.exitCall => false

/-- An operation that is a fully successful `prepareToRun`. -/
def opStarts : Op → Bool
  | Op.prepare g sw i => g && sw && i
  | _ => false

/-- An operation that never turns the running flag off: not an `exit()`, not
an iteration that pops a close event, not a `prepareToRun` whose
initialize-hook rollback fires. -/
def opKeeps : Op → Bool
  | Op.prepare g sw i => !(g && sw) || i
  | Op.iterate _ evs => !(decide (Event.closed ∈ evs))
  | Op.exitCall => false

lemma applyOp_running (s : AppState) (op : Op) :
    (applyOp s op).running = opEffect s.running op := by
  cases op with
  | prepare g sw i =>
    cases g <;> cases sw <;> cases i <;>
      simp [applyOp, opEffect, SampleApplication.prepareToRun]
  | iterate e evs =>
    by_cases h : Event.closed ∈ evs <;> cases hr : s.running <;>
      simp [applyOp, opEffect, SampleApplication.runIteration, drainEvents_running, h, hr]
  | exitCall => rfl

lemma applyOps_running (ops : List Op) (s : AppState) :
    (applyOps s ops).running = List.foldl opEffect s.running ops := by
  induction ops generalizing s with
  | nil => rfl
  | cons op rest ih =>
    simp only [applyOps, List.foldl_cons] at ih ⊢
    rw [ih, applyOp_running]

lemma foldl_opEffect_true (ops : List Op) (b : Bool)
    (h : List.foldl opEffect b ops = true) :
    (∃ pre op post, ops = pre ++ op :: post ∧ opStarts op = true ∧
       ∀ o ∈ post, opKeeps o = true)
  ∨ (b = true ∧ ∀ o ∈ ops, opKeeps o = true) := by
  induction ops generalizing b with
  | nil => exact Or.inr ⟨h, by simp⟩
  | cons op rest ih =>
    rw [List.foldl_cons] at h
    rcases ih (opEffect b op) h with hdec | ⟨hb, hkeep⟩
    · obtain ⟨pre, p, post, hsplit, hst, hk⟩ := hdec
      exact Or.inl ⟨op :: pre, p, post, by simp [hsplit], hst, hk⟩
    · by_cases hs : opStarts op = true
      · exact Or.inl ⟨[], op, rest, rfl, hs, hkeep⟩
      · cases op with
        | prepare g sw i =>
          cases g <;> cases sw <;> cases i <;> simp_all [opStarts, opEffect, opKeeps]
        | iterate e evs =>
          by_cases hc : Event.closed ∈ evs <;> simp_all [opEffect, opKeeps]
        | exitCall => simp_all [opEffect]

/-- C6: the running flag obeys the lifecycle: false after construction, true
after a `prepareToRun` returning success, false after any `exit()`; and in
every state reachable from construction by prepare / iterate / exit
operations, the flag is true only when some fully successful `prepareToRun`
occurred and no later operation turned the flag off (no `exit()`, no close
event, no initialize-hook rollback). -/
theorem running_lifecycle :
    SampleApplication.constructState.running = false
  ∧ (∀ s g sw i, (SampleApplication.prepareToRun s g sw i).2 = 0 →
       (SampleApplication.prepareToRun s g sw i).1.running = true)
  ∧ (∀ s, (SampleApplication.exit s).running = false)
  ∧ (∀ ops, (applyOps SampleApplication.constructState ops).running = true →
       ∃ pre op post, ops = pre ++ op :: post ∧ opStarts op = true ∧
         ∀ o ∈ post, opKeeps o = true) := by
  refine ⟨rfl, fun s g sw i h => ?_, fun s => rfl, fun ops h => ?_⟩
  · cases g <;> cases sw <;> cases i <;>
      simp_all [SampleApplication.prepareToRun]
  · rw [applyOps_running] at h
    rcases foldl_opEffect_true ops false h with hdec | ⟨hb, _⟩
    · exact hdec
    · exact absurd hb (by simp)

/-- Witness for C6 at a concrete input: after a single fully successful
`prepareToRun` the state is running, and the decomposition exists. -/
theorem running_lifecycle_witness :
    ∃ pre op post, [Op.prepare true true true] = pre ++ op :: post ∧
      opStarts op = true ∧ ∀ o ∈ post, opKeeps o = true :=
  running_lifecycle.2.2.2 [Op.prepare true true true] (by decide)

/-- C7: `exit()` is idempotent — a second call changes nothing — and on a
state whose running flag is already false it is the identity. -/
theorem exit_idempotent :
    (∀ s, SampleApplication.exit (SampleApplication.exit s) = SampleApplication.exit s)
  ∧ (∀ s, s.running = false → SampleApplication.exit s = s) := by
  constructor
  · intro s; rfl
  · intro s h; cases s; simp_all [SampleApplication.exit]

/-- Witness for C7 at a concrete input: `exit()` on the freshly constructed
(already stopped) state changes nothing. -/
theorem exit_idempotent_witness :
    SampleApplication.exit SampleApplication.constructState =
      SampleApplication.constructState :=
  exit_idempotent.2 SampleApplication.constructState rfl

/-- Counterexample for C8 as stated: with window initialization succeeding,
the explicit-loop path, and context initialization failing, `run` returns -1
having emitted only the window-initialize call — the user destroy hook,
`destroyGL` and the window teardown are all skipped. -/
theorem run_skips_teardown_on_prepare_failure :
    SampleApplication.run SampleApplication.constructState
      { windowInitOk := true, hasOwnLoop := false, ownLoopResult := 0,
        ownLoopState := SampleApplication.constructState,
        glOk := false, swapOk := true, initOk := true, iters := [] } =
      some (SampleApplication.constructState, [Effect.windowInit], -1)
  ∧ Effect.destroyHook ∉ [Effect.windowInit]
  ∧ Effect.destroyGL ∉ [Effect.windowInit]
  ∧ Effect.windowDestroy ∉ [Effect.windowInit] := by
  refine ⟨rfl, by decide, by decide, by decide⟩

/-- Reduction of a terminating explicit-path `run` whose `prepareToRun`
succeeded: the loop produced some outcome and `run` wraps it between the
window-initialize call and the three teardown calls, returning 0. -/
lemma run_explicit_success (s : AppState) (o : SampleApplication.RunOracle)
    (out : AppState × List Effect × Int)
    (h : SampleApplication.run s o = some out)
    (hw : o.windowInitOk = true) (ho : o.hasOwnLoop = false)
    (hp : (SampleApplication.prepareToRun s o.glOk o.swapOk o.initOk).2 = 0) :
    ∃ p, SampleApplication.runLoop
           (SampleApplication.prepareToRun s o.glOk o.swapOk o.initOk).1 o.iters = some p ∧
      out = (p.1,
             Effect.windowInit ::
               (p.2 ++ [Effect.destroyHook, Effect.destroyGL, Effect.windowDestroy]),
             0) := by
  unfold SampleApplication.run at h
  rw [hw] at h
  rw [if_neg (by simp)] at h
  rw [ho] at h
  rw [if_neg (by simp)] at h
  simp only [hp, ne_eq] at h
  rw [if_neg (by simp)] at h
  cases hl : SampleApplication.runLoop
      (SampleApplication.prepareToRun s o.glOk o.swapOk o.initOk).1 o.iters with
  | none => rw [hl] at h; simp at h
  | some p =>
    rw [hl] at h
    simp only [Option.map_some'] at h
    cases h
    exact ⟨p, rfl, rfl⟩

/-- C8 (amended): after a successful window initialization, every
terminating `run` — except the explicit-loop path in which `prepareToRun`
fails, where `run` returns early and skips teardown — ends its trace with
the user destroy hook, then `destroyGL`, then the window teardown, in that
order. -/
theorem run_teardown_order (s : AppState) (o : SampleApplication.RunOracle)
    (out : AppState × List Effect × Int)
    (h : SampleApplication.run s o = some out)
    (hw : o.windowInitOk = true)
    (hp : o.hasOwnLoop = true ∨
          (SampleApplication.prepareToRun s o.glOk o.swapOk o.initOk).2 = 0) :
    ∃ tr0, out.2.1 = tr0 ++ [Effect.destroyHook, Effect.destroyGL, Effect.windowDestroy] := by
  cases ho : o.hasOwnLoop with
  | true =>
    unfold SampleApplication.run at h
    rw [hw] at h
    rw [if_neg (by simp)] at h
    rw [ho, if_pos rfl] at h
    cases h
    exact ⟨[Effect.windowInit, Effect.ownLoop], rfl⟩
  | false =>
    have hp2 : (SampleApplication.prepareToRun s o.glOk o.swapOk o.initOk).2 = 0 := by
      rcases hp with hp | hp
      · rw [ho] at hp; cases hp
      · exact hp
    obtain ⟨p, -, hout⟩ := run_explicit_success s o out h hw ho hp2
    exact ⟨Effect.windowInit :: p.2, by rw [hout]; simp⟩

/-- Witness for C8 (amended) at a concrete input: the own-loop path, whose
trace ends with the three teardown calls in order. -/
theorem run_teardown_order_witness :
    ∃ tr0, [Effect.windowInit, Effect.ownLoop,
            Effect.destroyHook, Effect.destroyGL, Effect.windowDestroy] =
      tr0 ++ [Effect.destroyHook, Effect.destroyGL, Effect.windowDestroy] :=
  run_teardown_order SampleApplication.constructState
    { windowInitOk := true, hasOwnLoop := true, ownLoopResult := 0,
      ownLoopState := SampleApplication.constructState,
      glOk := true, swapOk := true, initOk := true, iters := [] }
    (SampleApplication.constructState,
     [Effect.windowInit, Effect.ownLoop,
      Effect.destroyHook, Effect.destroyGL, Effect.windowDestroy],
     0)
    rfl rfl (Or.inl rfl)

/-- C9: `runIteration` returns 0 for every state, timer value and event
queue — also when the running flag is already false on entry and when a
close event stops the iteration — and a terminating explicit-loop `run`
whose `prepareToRun` succeeded returns 0 no matter what the iterations did. -/
theorem runIteration_returns_zero :
    (∀ s e evs, (SampleApplication.runIteration s e evs).2.2 = 0)
  ∧ (∀ s o out, SampleApplication.run s o = some out →
       o.windowInitOk = true → o.hasOwnLoop = false →
       (SampleApplication.prepareToRun s o.glOk o.swapOk o.initOk).2 = 0 →
       out.2.2 = 0) := by
  constructor
  · intro s e evs
    cases hd : (SampleApplication.drainEvents s evs).running <;>
      simp [SampleApplication.runIteration, hd]
  · intro s o out h hw ho hp
    obtain ⟨p, -, hout⟩ := run_explicit_success s o out h hw ho hp
    rw [hout]

/-- Witness for C9 at a concrete input: an explicit-loop run whose single
iteration pops a close event terminates with result 0. -/
theorem runIteration_returns_zero_witness :
    ((({ running := false, prevTime := some 0 } : AppState),
      ([Effect.windowInit, Effect.stepHook,
        Effect.destroyHook, Effect.destroyGL, Effect.windowDestroy] : List Effect),
      (0 : Int)) : AppState × List Effect × Int).2.2 = 0 :=
  runIteration_returns_zero.2 SampleApplication.constructState
    { windowInitOk := true, hasOwnLoop := false, ownLoopResult := 7,
      ownLoopState := SampleApplication.constructState,
      glOk := true, swapOk := true, initOk := true, iters := [(1, [Event.closed])] }
    ({ running := false, prevTime := some 0 },
     [Effect.windowInit, Effect.stepHook,
      Effect.destroyHook, Effect.destroyGL, Effect.windowDestroy],
     0)
    (by decide) rfl rfl (by decide)

/-- C10: an iteration that finds the running flag false after the event
drain leaves the previous-time baseline untouched and never pumps the window
message loop; the baseline changes only in iterations whose trace contains
the draw hook and the swap, and then it becomes the iteration's elapsed
time. -/
theorem runIteration_prevTime (s : AppState) (e : Int) (evs : List Event) :
    ((SampleApplication.drainEvents s evs).running = false →
       (SampleApplication.runIteration s e evs).1.prevTime = s.prevTime
     ∧ Effect.messageLoop ∉ (SampleApplication.runIteration s e evs).2.1)
  ∧ ((SampleApplication.runIteration s e evs).1.prevTime ≠ s.prevTime →
       Effect.drawHook ∈ (SampleApplication.runIteration s e evs).2.1
     ∧ Effect.swapCall ∈ (SampleApplication.runIteration s e evs).2.1
     ∧ (SampleApplication.runIteration s e evs).1.prevTime = some e) := by
  cases hd : (SampleApplication.drainEvents s evs).running with
  | false =>
    have hpt := drainEvents_prevTime s evs
    constructor
    · intro _
      simp [SampleApplication.runIteration, hd, hpt]
    · intro hne
      exfalso
      apply hne
      simp [SampleApplication.runIteration, hd, hpt]
  | true =>
    constructor
    · intro hcontra; cases hcontra
    · intro _
      simp [SampleApplication.runIteration, hd]

/-- Witness for C10 at a concrete input: an iteration entered with the flag
already false keeps the baseline and skips the message-loop pump. -/
theorem runIteration_prevTime_witness :
    (SampleApplication.runIteration SampleApplication.constructState 5 []).1.prevTime
      = SampleApplication.constructState.prevTime
  ∧ Effect.messageLoop ∉
      (SampleApplication.runIteration SampleApplication.constructState 5 []).2.1 :=
  (runIteration_prevTime SampleApplication.constructState 5 []).1 (by decide)
